import Mathlib

/-!
Verification of the frame-timeline, playback-scheduler and GIF import and
export logic of the Animated GIF Editor (src/app.py), as a shallow
embedding in Lean 4.

Modelling conventions:
- Python ints are `Int`; list indices that can carry the -1 "none" sentinel
  are `Int` as well.
- the claim-relevant mutable fields of `MainWindow` become the record `AppState`;
  each Python method becomes a pure function `AppState → ... → AppState`.
- The Qt timer is modelled as `timer : Option Int`: `none` when stopped,
  `some d` when a tick is scheduled after `d` milliseconds.
- Image loading (PIL / QSvgWidget) is an external effect; GIF export takes a
  load oracle `load : FrameData → Option (Int × Int) → Option (Img × Int × Int)`
  mirroring `load_frame_image`, which catches all exceptions and returns
  either `None, 0, 0` or `(image, width, height)`; the optional argument is
  `expected_size`.  Frame export (export_checked) catches nothing, so its
  oracle distinguishes a missing file (skipped) from an existing file whose
  decode raises (aborting the loop): see `LoadResult`.
- List indexing `self.frames[i]` is modelled totally via `List.get?` with the
  default duration as fallback; the fallback is never reached at the indices
  the code actually uses (proved where relevant).
-/

/-- FrameData from src/model.py as used by src/app.py: one still image plus
its display duration and flags. -/
structure FrameData where
  source_path : String
  display_name : String
  duration_ms : Int
  is_custom_duration : Bool
  is_checked : Bool
deriving Repr, DecidableEq

/-- The claim-relevant mutable state of MainWindow (src/app.py, __init__). -/
structure AppState where
  frames : List FrameData
  current_index : Int
  default_duration_ms : Int
  animation_mode : String
  is_playing : Bool
  wave_direction : Int
  unsaved_changes : Bool
  timer : Option Int
deriving Repr, DecidableEq

/-- Duration of the frame at index `i`, mirroring
`self.frames[i].duration_ms`; out-of-range indices (never reached by the
code) fall back to the default duration. -/
def frame_duration_at (s : AppState) (i : Int) : Int :=
  ((s.frames.get? i.toNat).map FrameData.duration_ms).getD s.default_duration_ms

/-- MainWindow.get_next_index_for_mode (src/app.py lines 843-855).  Returns
the next index together with the new `wave_direction` (the Python method
mutates `self.wave_direction` in place before returning). -/
def get_next_index_for_mode (s : AppState) : Int × Int :=
  let n : Int := (s.frames.length : Int)
  if n = 0 then (0, s.wave_direction)
  else if s.animation_mode = "loop" then ((s.current_index + 1) % n, s.wave_direction)
  else if s.animation_mode = "wave" then
    let d : Int :=
      if s.current_index ≤ 0 then 1
      else if s.current_index ≥ n - 1 then -1
      else s.wave_direction
    (max 0 (min (n - 1) (s.current_index + d)), d)
  else ((s.current_index + 1) % n, s.wave_direction)

/-- MainWindow.stop_playback (src/app.py lines 829-832): clears `is_playing`
and cancels the pending tick. -/
def stop_playback (s : AppState) : AppState :=
  { s with is_playing := false, timer := none }

/-- MainWindow.start_playback (src/app.py lines 816-827): no-op on an empty
timeline, otherwise sets `is_playing` and schedules a tick after the current
frame duration (default duration if the cursor is the -1 sentinel), floored
at 10 ms. -/
def start_playback (s : AppState) : AppState :=
  if s.frames.isEmpty then s
  else
    let dur : Int :=
      if s.current_index ≥ 0 then frame_duration_at s s.current_index
      else s.default_duration_ms
    { s with is_playing := true, timer := some (max 10 dur) }

/-- MainWindow.advance_frame_for_playback (src/app.py lines 834-841): the
tick handler.  On an empty frame list it stops playback; otherwise it
advances the cursor by the mode rule, and only then reads the new current
frame duration to reschedule the tick, floored at 10 ms. -/
def advance_frame_for_playback (s : AppState) : AppState :=
  if s.frames.isEmpty then stop_playback s
  else
    let r := get_next_index_for_mode s
    let s1 := { s with current_index := r.1, wave_direction := r.2 }
    { s1 with timer := some (max 10 (frame_duration_at s1 r.1)) }

/-- MainWindow.remove_selected (src/app.py lines 427-437); `idx` is the tree
selection index passed in by `get_selected_index`.  Out-of-range indices are
a no-op; otherwise the frame at `idx` is deleted and the cursor is clamped
from `idx` (not from the previous cursor) into the new range, or set to the
-1 sentinel when the timeline becomes empty. -/
def remove_selected (s : AppState) (idx : Int) : AppState :=
  if idx < 0 ∨ (s.frames.length : Int) ≤ idx then s
  else
    let frames1 := s.frames.eraseIdx idx.toNat
    let ci : Int :=
      if frames1.isEmpty then -1
      else max 0 (min idx ((frames1.length : Int) - 1))
    { s with frames := frames1, current_index := ci, unsaved_changes := true }

/-- MainWindow.on_default_duration_changed (src/app.py lines 367-373): sets
the default duration and overwrites `duration_ms` of every frame whose
duration is not pinned (`is_custom_duration = false`). -/
def on_default_duration_changed (s : AppState) (value : Int) : AppState :=
  { s with
    default_duration_ms := value,
    frames := s.frames.map (fun f =>
      if f.is_custom_duration then f else { f with duration_ms := value }),
    unsaved_changes := true }

/-- Frame built by MainWindow.add_images for one chosen file (src/app.py
lines 401-410). -/
def mk_added_frame (default : Int) (path name : String) : FrameData :=
  { source_path := path
    display_name := name
    duration_ms := default
    is_custom_duration := false
    is_checked := false }

/-- MainWindow.add_images (src/app.py lines 387-418), with the file-picker
result passed in as a list of (path, name) pairs.  Appends one frame per
file, initialises the cursor if it was the -1 sentinel, marks the project
unsaved, and finally starts playback when frames exist and playback is
stopped. -/
def add_images (s : AppState) (files : List (String × String)) : AppState :=
  if files.isEmpty then s
  else
    let s1 := { s with
      frames := s.frames ++
        files.map (fun pr : String × String => mk_added_frame s.default_duration_ms pr.1 pr.2) }
    let s2 :=
      if s1.current_index = -1 ∧ ¬ s1.frames.isEmpty then { s1 with current_index := 0 } else s1
    let s3 := { s2 with unsaved_changes := true }
    if ¬ s3.frames.isEmpty ∧ s3.is_playing = false then start_playback s3 else s3

/-- Frame appended by MainWindow.open_gif for one decoded sub-image
(src/app.py lines 575-591): duration taken from the GIF info dict with the
current default duration as fallback, flags cleared.  The materialised
temporary PNG path and the 3-digit display name are not claim-relevant and
are abstracted as given strings. -/
def mk_import_frame (path name : String) (dur : Int) : FrameData :=
  { source_path := path
    display_name := name
    duration_ms := dur
    is_custom_duration := false
    is_checked := false }

/-- Durations extracted during the open_gif decode loop:
`frame.info.get ("duration", self.default_duration_ms)` per sub-image, where
a raw `none` means the format omitted the duration. -/
def import_extracted (raw : List (Option Int)) (default : Int) : List Int :=
  raw.map (fun o => o.getD default)

/-- Post-pass of MainWindow.open_gif over the extracted durations
(src/app.py lines 595-602).  Returns the rewritten frames and the new
default duration: if the duration list is non-empty and uniform, its common
value becomes the default and every frame is reset to it un-pinned;
otherwise each frame keeps its duration and is pinned exactly when it
differs from the unchanged default. -/
def open_gif_apply (frames : List FrameData) (durations : List Int) (default : Int) :
    List FrameData × Int :=
  match durations with
  | [] =>
    (frames.map (fun f => { f with is_custom_duration := decide (f.duration_ms ≠ default) }),
     default)
  | d0 :: _ =>
    if durations.all (fun d => d == d0) then
      (frames.map (fun f => { f with duration_ms := d0, is_custom_duration := false }), d0)
    else
      (frames.map (fun f => { f with is_custom_duration := decide (f.duration_ms ≠ default) }),
       default)

/-- The duration-related core of MainWindow.open_gif (src/app.py lines
567-604): build one frame per decoded sub-image from its extracted duration,
then run the duration post-pass.  Result: (frames, new default duration). -/
def open_gif_model (raw : List (Option Int)) (default : Int) : List FrameData × Int :=
  let durations := import_extracted raw default
  let frames := durations.map (fun d => mk_import_frame "" "" d)
  open_gif_apply frames durations default

/-- Arguments handed to the PIL encoder by `images[0].save(...)` in
MainWindow._save_gif_to_path (src/app.py lines 670-678): the ordered frame
images, the paired per-frame durations, the loop count and the disposal
mode. -/
structure GifEncodeArgs (Img : Type) where
  images : List Img
  durations : List Int
  loop : Int
  disposal : Int
deriving Repr, DecidableEq

/-- The three precondition failures of MainWindow._save_gif_to_path, raised
as QMessageBox messages in the code (src/app.py lines 638-668). -/
inductive ExportError where
  | EmptyTimelineError
  | FirstFrameLoadError
  | NoLoadableFramesError
deriving Repr, DecidableEq

/-- The per-frame loop of MainWindow._save_gif_to_path (src/app.py lines
655-660): load every frame at the canonical `out_size`; on failure skip the
frame, on success append the image to `images` and its `duration_ms` to
`durations`. -/
def collect_export {Img : Type}
    (load : FrameData → Option (Int × Int) → Option (Img × Int × Int))
    (out_size : Int × Int) : List FrameData → List Img × List Int
  | [] => ([], [])
  | f :: rest =>
    match load f (some out_size) with
    | none => collect_export load out_size rest
    | some r =>
      let acc := collect_export load out_size rest
      (r.1 :: acc.1, f.duration_ms :: acc.2)

/-- MainWindow._save_gif_to_path (src/app.py lines 637-678) up to the
encoder call, with image loading abstracted as the oracle `load` (mirroring
`load_frame_image`, which returns the image with its width and height, or
`none`).  An error result models the early `return` after a message box:
nothing is written.  A successful result carries exactly the arguments
passed to the GIF encoder. -/
def save_gif_to_path {Img : Type}
    (load : FrameData → Option (Int × Int) → Option (Img × Int × Int))
    (frames : List FrameData) : Except ExportError (GifEncodeArgs Img) :=
  match frames with
  | [] => .error .EmptyTimelineError
  | f0 :: _ =>
    match load f0 none with
    | none => .error .FirstFrameLoadError
    | some r0 =>
      let out_size : Int × Int := (r0.2.1, r0.2.2)
      let acc := collect_export load out_size frames
      if acc.1.isEmpty then .error .NoLoadableFramesError
      else .ok { images := acc.1, durations := acc.2, loop := 0, disposal := 2 }

/-- MainWindow._save_gif_to_path at the AppState level: on any precondition
failure the state is returned unchanged (and no encode arguments exist, so
nothing is written); on success `unsaved_changes` is cleared (src/app.py
line 685). -/
def save_gif_to_path_app {Img : Type}
    (load : FrameData → Option (Int × Int) → Option (Img × Int × Int))
    (s : AppState) : AppState × Except ExportError (GifEncodeArgs Img) :=
  match save_gif_to_path load s.frames with
  | .error e => (s, .error e)
  | .ok args => ({ s with unsaved_changes := false }, .ok args)

/-- Outcome of processing one checked frame inside the export loop of
MainWindow.export_checked: `missing` when the source path is falsy or the
file does not exist (the loop skips it with `continue`, src/app.py lines
503-505); `ok` when the frame loads and its file is written; `undecodable`
when the file exists but decoding raises from `Image.open` (src/app.py line
519) — an exception the loop does not catch. -/
inductive LoadResult (Img : Type) where
  | missing
  | ok (img : Img)
  | undecodable
deriving Repr, DecidableEq

/-- Outcome of MainWindow.export_checked as observable by its caller: the
no-checked-frames message (shown before any directory dialog, src/app.py
lines 481-486), an abort by an uncaught decode exception carrying the files
already written, or normal completion carrying the files written and the
count shown in the completion message (src/app.py lines 525-529). -/
inductive ExportCheckedOutcome (Img : Type) where
  | nothingChecked
  | aborted (written : List (String × Img))
  | completed (written : List (String × Img)) (reported : Nat)
deriving Repr, DecidableEq

/-- The per-frame loop of MainWindow.export_checked (src/app.py lines
502-523) over the checked frames: a missing source is skipped with
`continue`, a loadable frame is written as a (display name, image) file, and
an existing but undecodable source raises out of the loop — `Except.error`
carries the files written before the raise, `Except.ok` the files written by
a completed loop. -/
def run_export_loop {Img : Type} (load : FrameData → LoadResult Img) :
    List FrameData → Except (List (String × Img)) (List (String × Img))
  | [] => .ok []
  | f :: rest =>
    match load f with
    | .missing => run_export_loop load rest
    | .undecodable => .error []
    | .ok img =>
      match run_export_loop load rest with
      | .ok ws => .ok ((f.display_name, img) :: ws)
      | .error ws => .error ((f.display_name, img) :: ws)

/-- The files a completed (or so-far completed) run of the export loop
writes for the given frames: one (display name, image) pair per loadable
frame, missing frames skipped. -/
def export_writes {Img : Type} (load : FrameData → LoadResult Img)
    (l : List FrameData) : List (String × Img) :=
  l.filterMap (fun f =>
    match load f with
    | LoadResult.ok img => some (f.display_name, img)
    | _ => none)

/-- MainWindow.export_checked (src/app.py lines 480-529), with per-frame
loading abstracted as `load` (frames are loaded at natural size, hence no
size argument) and writes modelled as (display name, image) pairs.  When no
frame is checked it stops before any directory is involved; otherwise it
runs the loop over the checked frames, and only when no frame raised does it
show the completion message, which reports the length of `checked`. -/
def export_checked {Img : Type} (load : FrameData → LoadResult Img)
    (frames : List FrameData) : ExportCheckedOutcome Img :=
  let checked := frames.filter (fun f => f.is_checked)
  if checked.isEmpty then .nothingChecked
  else
    match run_export_loop load checked with
    | .ok ws => .completed ws checked.length
    | .error ws => .aborted ws

/-- A three-frame state with the cursor on the last frame and the tree
selection (index 0) different from the cursor, as happens after playback has
advanced the cursor away from the clicked row. -/
def removeCexState : AppState :=
  { frames := [mk_added_frame 100 "" "a", mk_added_frame 100 "" "b", mk_added_frame 100 "" "c"]
    current_index := 2
    default_duration_ms := 100
    animation_mode := "loop"
    is_playing := false
    wave_direction := 1
    unsaved_changes := false
    timer := none }

/-- Empty state on which a stray playback tick is delivered. -/
def tickEmptyState : AppState :=
  { frames := []
    current_index := -1
    default_duration_ms := 100
    animation_mode := "loop"
    is_playing := true
    wave_direction := 1
    unsaved_changes := false
    timer := some 100 }

/-- Stopped two-frame state used to exercise add_images. -/
def addStartState : AppState :=
  { frames := []
    current_index := -1
    default_duration_ms := 250
    animation_mode := "loop"
    is_playing := false
    wave_direction := 1
    unsaved_changes := false
    timer := none }

/-- Three-frame loop-mode state with the cursor on the middle frame; the
frames carry pairwise distinct durations. -/
def tickState3 : AppState :=
  { frames :=
      [{ source_path := "", display_name := "a", duration_ms := 40,
         is_custom_duration := true, is_checked := false },
       { source_path := "", display_name := "b", duration_ms := 70,
         is_custom_duration := true, is_checked := false },
       { source_path := "", display_name := "c", duration_ms := 90,
         is_custom_duration := true, is_checked := false }]
    current_index := 1
    default_duration_ms := 100
    animation_mode := "loop"
    is_playing := true
    wave_direction := 1
    unsaved_changes := false
    timer := some 70 }

/-- Concrete export fixture: frame named "bad" fails every load, the rest
load to a token image together with the requested size (natural size 4 x 3
for the first frame). -/
def expLoad : FrameData → Option (Int × Int) → Option (Nat × Int × Int) :=
  fun f sz =>
    if f.display_name = "bad" then none
    else
      match sz with
      | none => some (7, 4, 3)
      | some t => some (8, t.1, t.2)

def expFr (name : String) (dur : Int) : FrameData :=
  { source_path := ""
    display_name := name
    duration_ms := dur
    is_custom_duration := false
    is_checked := false }

/-- Empty-timeline state used to exercise the export preconditions. -/
def expEmptyState : AppState :=
  { frames := []
    current_index := -1
    default_duration_ms := 100
    animation_mode := "loop"
    is_playing := false
    wave_direction := 1
    unsaved_changes := true
    timer := none }

/-- One-frame state used to exercise the export preconditions. -/
def expOneState : AppState :=
  { frames := [expFr "f0" 100]
    current_index := 0
    default_duration_ms := 100
    animation_mode := "loop"
    is_playing := false
    wave_direction := 1
    unsaved_changes := true
    timer := none }

/-- Load oracle that fails every load. -/
def loadNone : FrameData → Option (Int × Int) → Option (Nat × Int × Int) :=
  fun _ _ => none

/-- Load oracle that succeeds only at natural size (no target size). -/
def loadNaturalOnly : FrameData → Option (Int × Int) → Option (Nat × Int × Int) :=
  fun _ sz =>
    match sz with
    | none => some (1, 2, 2)
    | some _ => none

/-- Checked frame whose source file is missing. -/
def c7MissingFr : FrameData :=
  { source_path := "missing.png"
    display_name := "missing.png"
    duration_ms := 100
    is_custom_duration := false
    is_checked := true }

/-- Checked frame whose source file exists but cannot be decoded. -/
def c7BadFr : FrameData :=
  { source_path := "broken.png"
    display_name := "broken.png"
    duration_ms := 100
    is_custom_duration := false
    is_checked := true }

/-- Checked frame that loads fine. -/
def c7GoodFr : FrameData :=
  { source_path := "good.png"
    display_name := "good.png"
    duration_ms := 100
    is_custom_duration := false
    is_checked := true }

/-- Load oracle for the C7 fixtures: "missing.png" is absent (skipped),
"broken.png" exists but raises on decode, every other frame loads to a
token image. -/
def c7CexLoad : FrameData → LoadResult Nat :=
  fun f =>
    if f.display_name = "missing.png" then .missing
    else if f.display_name = "broken.png" then .undecodable
    else .ok 5

/-- The wave direction after one wave-mode advance, as stated by the
specification: forced to +1 when the cursor is at (or before) the first
frame, else forced to -1 when the cursor is at (or past) the last frame,
else the persisted direction.  The first condition is tested first, so on a
single-frame timeline the direction is +1. -/
def wave_dir_spec (s : AppState) : Int :=
  if s.current_index ≤ 0 then 1
  else if s.current_index ≥ (s.frames.length : Int) - 1 then -1
  else s.wave_direction

/-- The next cursor of a wave-mode advance as stated by the specification:
clamp(cursor + new direction, 0, n - 1). -/
def wave_next_spec (s : AppState) : Int :=
  max 0 (min ((s.frames.length : Int) - 1) (s.current_index + wave_dir_spec s))

/-- Three-frame wave-mode state at cursor 0 with direction +1 (the state
right after loading three frames and selecting Wave). -/
def wave3Start : AppState :=
  { frames :=
      [mk_import_frame "" "w1" 100, mk_import_frame "" "w2" 100, mk_import_frame "" "w3" 100]
    current_index := 0
    default_duration_ms := 100
    animation_mode := "wave"
    is_playing := true
    wave_direction := 1
    unsaved_changes := false
    timer := none }

/-- Single-frame wave-mode state at cursor 0, with an arbitrary persisted
direction. -/
def wave1Start (d : Int) : AppState :=
  { frames := [mk_import_frame "" "w1" 100]
    current_index := 0
    default_duration_ms := 100
    animation_mode := "wave"
    is_playing := true
    wave_direction := d
    unsaved_changes := false
    timer := none }

/-- The ping-pong cursor sequence 0,1,2,1,0,1,2,1,... claimed for a
three-frame wave timeline started at cursor 0. -/
def wavePat (k : Nat) : Int :=
  match k % 4 with
  | 0 => 0
  | 1 => 1
  | 2 => 2
  | _ => 1

/-- C8: on_default_duration_changed sets `default_duration_ms` to the new
value and sets `duration_ms` to it on every frame with
`is_custom_duration = false`, while every pinned frame is kept entirely
unchanged (the position-wise image of each old frame is the old frame itself
when pinned, and the old frame with only `duration_ms` replaced
otherwise). -/
theorem C8_set_default_duration (s : AppState) (v : Int) :
    (on_default_duration_changed s v).default_duration_ms = v ∧
    ∀ i : Nat,
      (on_default_duration_changed s v).frames[i]? =
        (s.frames[i]?).map
          (fun f => if f.is_custom_duration then f else { f with duration_ms := v }) := by
  refine ⟨rfl, fun i => ?_⟩
  simp [on_default_duration_changed, List.getElem?_map]

/-- C9: a playback tick delivered while the frame list is empty stops the
scheduler (clears `is_playing` and cancels the pending tick) and leaves the
cursor unmodified. -/
theorem C9_tick_on_empty_stops (s : AppState) (h : s.frames = []) :
    (advance_frame_for_playback s).is_playing = false ∧
    (advance_frame_for_playback s).timer = none ∧
    (advance_frame_for_playback s).current_index = s.current_index := by
  simp [advance_frame_for_playback, h, stop_playback]

/-- C9 witness: the theorem applied to a concrete empty state carrying a
pending tick. -/
theorem C9_tick_on_empty_stops_witness :
    (advance_frame_for_playback tickEmptyState).is_playing = false ∧
    (advance_frame_for_playback tickEmptyState).timer = none ∧
    (advance_frame_for_playback tickEmptyState).current_index = tickEmptyState.current_index :=
  C9_tick_on_empty_stops tickEmptyState rfl

/-- C2 counterexample: on a 3-frame timeline with cursor 2, removing index 0
sets the cursor to clamp(0, 0, 1) = 0, not to clamp(old_cursor, 0, 1) = 1 as
the claim states, so the new cursor is not computed from the cursor value
that held before the removal. -/
theorem C2_remove_counterexample :
    ¬ ((remove_selected removeCexState 0).current_index =
        max 0 (min removeCexState.current_index
          (((removeCexState.frames.eraseIdx 0).length : Int) - 1))) := by
  decide

/-- C2 amended: remove(index) deletes the frame at the index and sets the
cursor to clamp(index, 0, new_len - 1) — computed from the removed index,
not from the cursor value that held before the removal — or to the -1
sentinel when the timeline becomes empty; out-of-range indices are a silent
no-op. -/
theorem C2_remove_amended (s : AppState) (idx : Int) :
    ((idx < 0 ∨ (s.frames.length : Int) ≤ idx) → remove_selected s idx = s) ∧
    (0 ≤ idx → idx < (s.frames.length : Int) →
      (remove_selected s idx).frames = s.frames.eraseIdx idx.toNat ∧
      (remove_selected s idx).current_index =
        (if s.frames.eraseIdx idx.toNat = [] then (-1 : Int)
         else max 0 (min idx (((s.frames.eraseIdx idx.toNat).length : Int) - 1)))) := by
  constructor
  · intro h
    rw [remove_selected, if_pos h]
  · intro h0 h1
    rw [remove_selected, if_neg (by omega)]
    refine ⟨rfl, ?_⟩
    by_cases he : s.frames.eraseIdx idx.toNat = []
    · simp [he]
    · simp [he]

/-- C2 witness: the amended theorem applied at concrete inputs — an
out-of-range removal is a no-op and an in-range removal deletes the frame
and clamps the removed index. -/
theorem C2_remove_amended_witness :
    remove_selected removeCexState 5 = removeCexState ∧
    (remove_selected removeCexState 0).frames = removeCexState.frames.eraseIdx 0 ∧
    (remove_selected removeCexState 0).current_index = 0 := by
  refine ⟨(C2_remove_amended removeCexState 5).1 (Or.inr (by decide)), ?_, ?_⟩
  · exact ((C2_remove_amended removeCexState 0).2 (by decide) (by decide)).1
  · exact (((C2_remove_amended removeCexState 0).2 (by decide) (by decide)).2).trans (by decide)

/-- start_playback on a non-empty timeline always turns playback on and
schedules a tick. -/
theorem start_playback_of_nonempty (s : AppState) (h : s.frames.isEmpty = false) :
    (start_playback s).is_playing = true ∧ ∃ d : Int, (start_playback s).timer = some d := by
  rw [start_playback, if_neg (by simp [h])]
  exact ⟨rfl, _, rfl⟩

/-- C10: after a successful add of at least one frame while playback is
stopped, playback starts automatically: `is_playing` becomes true and a tick
is scheduled. -/
theorem C10_add_images_starts_playback (s : AppState) (files : List (String × String))
    (hf : files ≠ []) (hp : s.is_playing = false) :
    (add_images s files).is_playing = true ∧
    ∃ d : Int, (add_images s files).timer = some d := by
  have hne : files.isEmpty = false := List.isEmpty_eq_false.mpr hf
  have hfr : (s.frames ++
      files.map (fun pr : String × String =>
        mk_added_frame s.default_duration_ms pr.1 pr.2)).isEmpty = false := by
    cases files with
    | nil => exact absurd rfl hf
    | cons a l => simp
  rw [add_images, if_neg (by simp [hne])]
  dsimp only
  split
  · rw [if_pos ⟨by simp [hfr], hp⟩]
    exact start_playback_of_nonempty _ hfr
  · rw [if_pos ⟨by simp [hfr], hp⟩]
    exact start_playback_of_nonempty _ hfr

/-- C10 witness: the theorem applied to a concrete stopped state and one
added file. -/
theorem C10_add_images_starts_playback_witness :
    (add_images addStartState [("p.png", "p.png")]).is_playing = true ∧
    ∃ d : Int, (add_images addStartState [("p.png", "p.png")]).timer = some d :=
  C10_add_images_starts_playback addStartState [("p.png", "p.png")] (by decide) rfl

/-- The index returned by get_next_index_for_mode is always in range on a
non-empty timeline, in every animation mode. -/
theorem get_next_index_bounds (s : AppState) (h : s.frames ≠ []) :
    0 ≤ (get_next_index_for_mode s).1 ∧
    (get_next_index_for_mode s).1 < (s.frames.length : Int) := by
  have hn : (0 : Int) < (s.frames.length : Int) := by
    exact_mod_cast List.length_pos.mpr h
  rw [get_next_index_for_mode]
  dsimp only
  split
  · omega
  · split
    · exact ⟨Int.emod_nonneg _ (by omega), Int.emod_lt_of_pos _ hn⟩
    · split
      · refine ⟨le_max_left _ _, ?_⟩
        exact max_lt hn (lt_of_le_of_lt (min_le_left _ _) (by omega))
      · exact ⟨Int.emod_nonneg _ (by omega), Int.emod_lt_of_pos _ hn⟩

/-- C3: on a non-empty timeline a playback tick first assigns the
mode-advanced cursor and only then reads the duration used to reschedule:
the new cursor is in range, and the scheduled delay is
max(10, duration_ms of the frame at the NEW cursor). -/
theorem C3_tick_schedules_new_frame_duration (s : AppState) (h : s.frames ≠ []) :
    ∃ hlt : ((get_next_index_for_mode s).1).toNat < s.frames.length,
      (advance_frame_for_playback s).current_index = (get_next_index_for_mode s).1 ∧
      (advance_frame_for_playback s).timer =
        some (max 10 (s.frames.get
          ⟨((get_next_index_for_mode s).1).toNat, hlt⟩).duration_ms) := by
  obtain ⟨h0, h1⟩ := get_next_index_bounds s h
  have hlt : ((get_next_index_for_mode s).1).toNat < s.frames.length := by omega
  refine ⟨hlt, ?_, ?_⟩
  · rw [advance_frame_for_playback, if_neg (by simp [h])]
  · rw [advance_frame_for_playback, if_neg (by simp [h])]
    dsimp only [frame_duration_at]
    rw [List.get?_eq_get hlt]
    rfl

/-- C3 witness: the theorem applied to a concrete 3-frame loop state at
cursor 1; the tick moves the cursor to 2 and schedules the 90 ms of the NEW
frame, not the 70 ms of the previous frame. -/
theorem C3_tick_schedules_new_frame_duration_witness :
    (advance_frame_for_playback tickState3).current_index = 2 ∧
    (advance_frame_for_playback tickState3).timer = some 90 := by
  obtain ⟨hlt, hc, ht⟩ :=
    C3_tick_schedules_new_frame_duration tickState3 (by decide)
  exact ⟨hc.trans (by decide), ht.trans (by rfl)⟩

/-- C4: for a GIF import that decodes at least one sub-image, if all
extracted durations equal some value d then the import adopts d as the
default duration and resets every frame to duration d un-pinned; otherwise
the default duration is unchanged, each frame keeps its own extracted
duration, and exactly the frames whose duration differs from the unchanged
default are pinned. -/
theorem C4_import_duration_postpass (raw : List (Option Int)) (default : Int)
    (hraw : raw ≠ []) :
    (∀ d : Int, (∀ x ∈ import_extracted raw default, x = d) →
      (open_gif_model raw default).2 = d ∧
      ∀ f ∈ (open_gif_model raw default).1,
        f.duration_ms = d ∧ f.is_custom_duration = false) ∧
    ((¬ ∃ d : Int, ∀ x ∈ import_extracted raw default, x = d) →
      (open_gif_model raw default).2 = default ∧
      (open_gif_model raw default).1.map FrameData.duration_ms =
        import_extracted raw default ∧
      ∀ f ∈ (open_gif_model raw default).1,
        (f.is_custom_duration = true ↔ f.duration_ms ≠ default)) := by
  have hds : import_extracted raw default ≠ [] := by
    cases raw with
    | nil => exact absurd rfl hraw
    | cons a l => simp [import_extracted]
  obtain ⟨d0, rest, hcons⟩ := List.exists_cons_of_ne_nil hds
  constructor
  · intro d hall
    have hd0 : d0 = d := hall d0 (by rw [hcons]; exact List.mem_cons_self _ _)
    have hallb : (import_extracted raw default).all (fun x => x == d0) = true := by
      rw [List.all_eq_true]
      intro x hx
      rw [hall x hx, hd0]
      exact beq_self_eq_true d
    simp only [open_gif_model]
    rw [hcons] at hallb ⊢
    simp only [open_gif_apply]
    rw [if_pos hallb]
    refine ⟨hd0, fun f hf => ?_⟩
    rw [List.mem_map] at hf
    obtain ⟨g, _, rfl⟩ := hf
    exact ⟨hd0, rfl⟩
  · intro hnone
    have hallb : (import_extracted raw default).all (fun x => x == d0) = false := by
      by_contra hb
      have hb2 : (import_extracted raw default).all (fun x => x == d0) = true := by
        revert hb
        cases (import_extracted raw default).all (fun x => x == d0) <;> simp
      apply hnone
      exact ⟨d0, fun x hx => eq_of_beq ((List.all_eq_true.mp hb2) x hx)⟩
    simp only [open_gif_model]
    rw [hcons] at hallb ⊢
    simp only [open_gif_apply]
    rw [if_neg (by simp [hallb])]
    refine ⟨rfl, ?_, ?_⟩
    · rw [List.map_map, List.map_map]
      conv_rhs => rw [← List.map_id (d0 :: rest)]
      exact List.map_congr_left (fun a _ => rfl)
    · intro f hf
      rw [List.mem_map] at hf
      obtain ⟨g, _, rfl⟩ := hf
      simp

/-- C4 witness: the theorem applied to a concrete uniform import (two
sub-images at 120 ms adopt 120 as the default) and a concrete non-uniform
one (100 ms and 250 ms leave the default at 100). -/
theorem C4_import_duration_postpass_witness :
    (open_gif_model [some 120, some 120] 100).2 = 120 ∧
    (open_gif_model [some 100, some 250] 100).2 = 100 := by
  constructor
  · exact ((C4_import_duration_postpass [some 120, some 120] 100 (by decide)).1 120
      (by decide)).1
  · refine ((C4_import_duration_postpass [some 100, some 250] 100 (by decide)).2 ?_).1
    rintro ⟨d, hd⟩
    have h1 := hd 100 (by decide)
    have h2 := hd 250 (by decide)
    omega

/-- The export loop keeps images and durations paired by position: it equals
the filterMap of (image, duration_ms) pairs over all frames, split into its
two components. -/
theorem collect_export_eq_filterMap {Img : Type}
    (load : FrameData → Option (Int × Int) → Option (Img × Int × Int))
    (sz : Int × Int) (l : List FrameData) :
    collect_export load sz l =
      (((l.filterMap
          (fun f => (load f (some sz)).map (fun t => (t.1, f.duration_ms)))).map Prod.fst),
       ((l.filterMap
          (fun f => (load f (some sz)).map (fun t => (t.1, f.duration_ms)))).map Prod.snd)) := by
  induction l with
  | nil => rfl
  | cons f rest ih =>
    rw [collect_export, List.filterMap_cons]
    cases hl : load f (some sz) with
    | none => simpa [hl] using ih
    | some r => simp [hl, ih]

/-- C5: when the first frame loads at its natural size (w, h), export loads
every frame — checked or not — at the canonical size (w, h), drops failing
frames together with their durations so that the surviving (image, duration)
pairs stay aligned by position, and encodes them with infinite loop count
(loop = 0), verbatim per-frame duration_ms, and restore-to-background
disposal (disposal = 2). -/
theorem C5_export_encoding {Img : Type}
    (load : FrameData → Option (Int × Int) → Option (Img × Int × Int))
    (f0 : FrameData) (rest : List FrameData) (r0 : Img × Int × Int)
    (h0 : load f0 none = some r0)
    (hne : (f0 :: rest).filterMap
        (fun f => (load f (some (r0.2.1, r0.2.2))).map (fun t => (t.1, f.duration_ms))) ≠ []) :
    save_gif_to_path load (f0 :: rest) =
      Except.ok
        { images := ((f0 :: rest).filterMap
            (fun f =>
              (load f (some (r0.2.1, r0.2.2))).map (fun t => (t.1, f.duration_ms)))).map Prod.fst,
          durations := ((f0 :: rest).filterMap
            (fun f =>
              (load f (some (r0.2.1, r0.2.2))).map (fun t => (t.1, f.duration_ms)))).map Prod.snd,
          loop := 0,
          disposal := 2 } := by
  rw [save_gif_to_path, h0]
  dsimp only
  rw [collect_export_eq_filterMap load (r0.2.1, r0.2.2) (f0 :: rest)]
  rw [if_neg (by simp [hne])]

/-- C5 witness: the theorem applied to three concrete frames of which the
middle one fails to load; its 200 ms duration is dropped with it and the
survivors keep durations 100 and 300 in order, with loop 0 and disposal 2. -/
theorem C5_export_encoding_witness :
    save_gif_to_path expLoad [expFr "f0" 100, expFr "bad" 200, expFr "f2" 300] =
      Except.ok { images := [8, 8], durations := [100, 300], loop := 0, disposal := 2 } := by
  have h := C5_export_encoding expLoad (expFr "f0" 100) [expFr "bad" 200, expFr "f2" 300]
    (7, 4, 3) rfl (by decide)
  exact h.trans (by rfl)

/-- C6: GIF export fails, with the timeline state returned unmodified and no
encode arguments produced (so nothing is written), in exactly three
precondition cases — EmptyTimelineError on an empty timeline,
FirstFrameLoadError when the first frame fails to load at natural size, and
NoLoadableFramesError when the canonical-size read succeeded but every frame
load at the canonical size fails; conversely every error result arises from
one of these three situations. -/
theorem C6_export_preconditions {Img : Type}
    (load : FrameData → Option (Int × Int) → Option (Img × Int × Int)) (s : AppState) :
    (s.frames = [] →
      save_gif_to_path_app load s = (s, Except.error ExportError.EmptyTimelineError)) ∧
    (∀ f0 rest, s.frames = f0 :: rest → load f0 none = none →
      save_gif_to_path_app load s = (s, Except.error ExportError.FirstFrameLoadError)) ∧
    (∀ f0 rest r0, s.frames = f0 :: rest → load f0 none = some r0 →
      (∀ f ∈ s.frames, load f (some (r0.2.1, r0.2.2)) = none) →
      save_gif_to_path_app load s = (s, Except.error ExportError.NoLoadableFramesError)) ∧
    (∀ e : ExportError, (save_gif_to_path_app load s).2 = Except.error e →
      (e = ExportError.EmptyTimelineError ∧ s.frames = []) ∨
      (e = ExportError.FirstFrameLoadError ∧
        ∃ f0 rest, s.frames = f0 :: rest ∧ load f0 none = none) ∨
      (e = ExportError.NoLoadableFramesError ∧
        ∃ f0 rest r0, s.frames = f0 :: rest ∧ load f0 none = some r0 ∧
          ∀ f ∈ s.frames, load f (some (r0.2.1, r0.2.2)) = none)) := by
  refine ⟨?_, ?_, ?_, ?_⟩
  · intro h
    rw [save_gif_to_path_app, save_gif_to_path.eq_def, h]
  · intro f0 rest hfr h0
    rw [save_gif_to_path_app, save_gif_to_path.eq_def, hfr]
    dsimp only
    rw [h0]
  · intro f0 rest r0 hfr h0 hall
    have hemp : (f0 :: rest).filterMap
        (fun f => (load f (some (r0.2.1, r0.2.2))).map (fun t => (t.1, f.duration_ms))) = [] := by
      rw [List.filterMap_eq_nil_iff]
      intro f hf
      rw [hall f (hfr ▸ hf)]
      rfl
    rw [save_gif_to_path_app, save_gif_to_path.eq_def, hfr]
    dsimp only
    rw [h0]
    dsimp only
    rw [collect_export_eq_filterMap load (r0.2.1, r0.2.2) (f0 :: rest)]
    rw [if_pos (by simp [hemp])]
  · intro e he
    rw [save_gif_to_path_app] at he
    cases hsave : save_gif_to_path load s.frames with
    | ok args => rw [hsave] at he; exact absurd he (by simp)
    | error e2 =>
      rw [hsave] at he
      have he2 : e2 = e := by
        have := he
        simp at this
        exact this
      subst he2
      rw [save_gif_to_path.eq_def] at hsave
      cases hfrs : s.frames with
      | nil =>
        rw [hfrs] at hsave
        refine Or.inl ⟨?_, rfl⟩
        exact (Except.error.injEq _ _ ▸ congrArg id hsave) ▸ (by
          cases hsave
          rfl)
      | cons f0 rest =>
        rw [hfrs] at hsave
        dsimp only at hsave
        cases h0 : load f0 none with
        | none =>
          rw [h0] at hsave
          refine Or.inr (Or.inl ⟨?_, f0, rest, rfl, h0⟩)
          cases hsave
          rfl
        | some r0 =>
          rw [h0] at hsave
          dsimp only at hsave
          rw [collect_export_eq_filterMap load (r0.2.1, r0.2.2) (f0 :: rest)] at hsave
          by_cases hemp : (f0 :: rest).filterMap
              (fun f => (load f (some (r0.2.1, r0.2.2))).map (fun t => (t.1, f.duration_ms))) = []
          · rw [if_pos (by simp [hemp])] at hsave
            refine Or.inr (Or.inr ⟨by cases hsave; rfl, f0, rest, r0, rfl, h0, ?_⟩)
            intro f hf
            have hm := List.filterMap_eq_nil_iff.mp hemp f (hfrs ▸ hf)
            cases hl : load f (some (r0.2.1, r0.2.2)) with
            | none => rfl
            | some t => rw [hl] at hm; exact absurd hm (by simp)
          · rw [if_neg (by simp [hemp])] at hsave
            exact absurd hsave (by simp)

/-- C6 witness: the theorem applied to concrete inputs for each of the three
precondition failures; in each case the state comes back unmodified. -/
theorem C6_export_preconditions_witness :
    save_gif_to_path_app loadNone expEmptyState =
      (expEmptyState, Except.error ExportError.EmptyTimelineError) ∧
    save_gif_to_path_app loadNone expOneState =
      (expOneState, Except.error ExportError.FirstFrameLoadError) ∧
    save_gif_to_path_app loadNaturalOnly expOneState =
      (expOneState, Except.error ExportError.NoLoadableFramesError) := by
  refine ⟨?_, ?_, ?_⟩
  · exact (C6_export_preconditions loadNone expEmptyState).1 rfl
  · exact (C6_export_preconditions loadNone expOneState).2.1 (expFr "f0" 100) [] rfl rfl
  · exact (C6_export_preconditions loadNaturalOnly expOneState).2.2.1
      (expFr "f0" 100) [] (1, 2, 2) rfl rfl (by decide)

/-- When no checked frame raises on decode, the export loop completes and
writes exactly the loadable frames in order. -/
theorem run_export_loop_ok {Img : Type} (load : FrameData → LoadResult Img)
    (l : List FrameData) (h : ∀ f ∈ l, load f ≠ LoadResult.undecodable) :
    run_export_loop load l = Except.ok (export_writes load l) := by
  induction l with
  | nil => rfl
  | cons f rest ih =>
    have hrest := ih (fun g hg => h g (List.mem_cons_of_mem f hg))
    rw [run_export_loop]
    cases hl : load f with
    | missing =>
      rw [hrest]
      simp [export_writes, List.filterMap_cons, hl]
    | ok img =>
      rw [hrest]
      simp [export_writes, List.filterMap_cons, hl]
    | undecodable => exact absurd hl (h f (List.mem_cons_self f rest))

/-- The export loop aborts at the first checked frame that raises on
decode, keeping exactly the files written before it. -/
theorem run_export_loop_abort {Img : Type} (load : FrameData → LoadResult Img)
    (pre : List FrameData) (f : FrameData) (post : List FrameData)
    (hpre : ∀ g ∈ pre, load g ≠ LoadResult.undecodable)
    (hf : load f = LoadResult.undecodable) :
    run_export_loop load (pre ++ f :: post) =
      Except.error (export_writes load pre) := by
  induction pre with
  | nil =>
    rw [List.nil_append, run_export_loop, hf]
    rfl
  | cons g rest ih =>
    have hrest := ih (fun x hx => hpre x (List.mem_cons_of_mem g hx))
    rw [List.cons_append, run_export_loop]
    cases hg : load g with
    | missing =>
      rw [hrest]
      simp [export_writes, List.filterMap_cons, hg]
    | ok img =>
      rw [hrest]
      simp [export_writes, List.filterMap_cons, hg]
    | undecodable => exact absurd hg (hpre g (List.mem_cons_self g rest))

/-- C7 counterexample: with one checked frame whose source file is missing,
the run completes but reports count 1 while zero files were written, so the
reported count is not the number actually written; and with a checked
undecodable frame followed by a checked loadable frame, the operation never
completes at all (it aborts on the uncaught decode exception), so the
failing frame is not skipped individually as the claim states. -/
theorem C7_export_checked_counterexample :
    (¬ ∀ (ws : List (String × Nat)) (n : Nat),
        export_checked c7CexLoad [c7MissingFr] = ExportCheckedOutcome.completed ws n →
        n = ws.length) ∧
    (¬ ∃ (ws : List (String × Nat)) (n : Nat),
        export_checked c7CexLoad [c7BadFr, c7GoodFr] =
          ExportCheckedOutcome.completed ws n) := by
  constructor
  · intro h
    have := h [] 1 rfl
    exact absurd this (by decide)
  · rintro ⟨ws, n, h⟩
    have he : export_checked c7CexLoad [c7BadFr, c7GoodFr] =
        ExportCheckedOutcome.aborted [] := rfl
    exact ExportCheckedOutcome.noConfusion (he.symm.trans h)

/-- C7 amended: export_checked stops with the nothing-checked message,
before any directory is involved, when no frame is checked; otherwise it
writes only the checked frames, skipping individually each checked frame
whose source file is missing; a checked frame whose file exists but cannot
be decoded aborts the whole operation uncaught, keeping the files already
written and showing no completion report; and when the loop does complete,
the count it reports is the number of frames that were checked, which can
exceed the number actually written. -/
theorem C7_export_checked_amended {Img : Type} (load : FrameData → LoadResult Img)
    (frames : List FrameData) :
    (frames.filter (fun fr => fr.is_checked) = [] →
      export_checked load frames = ExportCheckedOutcome.nothingChecked) ∧
    (frames.filter (fun fr => fr.is_checked) ≠ [] →
      (∀ f ∈ frames.filter (fun fr => fr.is_checked), load f ≠ LoadResult.undecodable) →
      export_checked load frames =
        ExportCheckedOutcome.completed
          (export_writes load (frames.filter (fun fr => fr.is_checked)))
          (frames.filter (fun fr => fr.is_checked)).length) ∧
    (∀ pre f post, frames.filter (fun fr => fr.is_checked) = pre ++ f :: post →
      (∀ g ∈ pre, load g ≠ LoadResult.undecodable) →
      load f = LoadResult.undecodable →
      export_checked load frames =
        ExportCheckedOutcome.aborted (export_writes load pre)) := by
  refine ⟨?_, ?_, ?_⟩
  · intro h
    rw [export_checked]
    rw [if_pos (by simp [h])]
  · intro hne hok
    rw [export_checked]
    rw [if_neg (by simp [hne]), run_export_loop_ok load _ hok]
  · intro pre f post hsplit hpre hf
    have hne : frames.filter (fun fr => fr.is_checked) ≠ [] := by
      rw [hsplit]
      simp
    rw [export_checked]
    rw [if_neg (by simp [hne]), hsplit, run_export_loop_abort load pre f post hpre hf]

/-- C7 witness: the amended theorem applied at concrete inputs — no checked
frame stops before any directory; a checked missing frame plus a checked
loadable frame complete with one file written yet reported count 2; and a
checked loadable frame followed by a checked undecodable one aborts with the
one file already written and no report. -/
theorem C7_export_checked_amended_witness :
    export_checked c7CexLoad ([] : List FrameData) =
      ExportCheckedOutcome.nothingChecked ∧
    export_checked c7CexLoad [c7MissingFr, c7GoodFr] =
      ExportCheckedOutcome.completed [("good.png", 5)] 2 ∧
    export_checked c7CexLoad [c7GoodFr, c7BadFr] =
      ExportCheckedOutcome.aborted [("good.png", 5)] := by
  refine ⟨(C7_export_checked_amended c7CexLoad []).1 rfl, ?_, ?_⟩
  · have h := (C7_export_checked_amended c7CexLoad [c7MissingFr, c7GoodFr]).2.1
      (by decide) (by decide)
    exact h.trans (by rfl)
  · have h := (C7_export_checked_amended c7CexLoad [c7GoodFr, c7BadFr]).2.2
      [c7GoodFr] c7BadFr [] (by rfl) (by decide) (by rfl)
    exact h.trans (by rfl)

/-- In wave mode on a non-empty timeline, one advance returns exactly the
clamped next cursor and the endpoint-forced direction of the
specification. -/
theorem wave_step_rule (s : AppState) (hm : s.animation_mode = "wave")
    (hn : 1 ≤ s.frames.length) :
    get_next_index_for_mode s = (wave_next_spec s, wave_dir_spec s) := by
  have h0 : ¬ ((s.frames.length : Int) = 0) := by
    have h1 : (1 : Int) ≤ (s.frames.length : Int) := by exact_mod_cast hn
    omega
  rw [get_next_index_for_mode]
  dsimp only
  rw [if_neg h0, hm]
  rw [if_neg (by decide : ¬ ("wave" = "loop"))]
  rw [if_pos rfl]
  rw [wave_next_spec, wave_dir_spec]

/-- One orbit fact for the three-frame wave trace: five ticks from the start
state land on the same full state as one tick. -/
theorem wave3_iterate_five (k : Nat) :
    advance_frame_for_playback^[k + 5] wave3Start =
      advance_frame_for_playback^[k + 1] wave3Start := by
  have h5 : advance_frame_for_playback^[5] wave3Start =
      advance_frame_for_playback^[1] wave3Start := by decide
  calc advance_frame_for_playback^[k + 5] wave3Start
      = advance_frame_for_playback^[k] (advance_frame_for_playback^[5] wave3Start) := by
        rw [Function.iterate_add_apply]
    _ = advance_frame_for_playback^[k] (advance_frame_for_playback^[1] wave3Start) := by
        rw [h5]
    _ = advance_frame_for_playback^[k + 1] wave3Start := by
        rw [Function.iterate_add_apply]

/-- The three-frame wave cursor is periodic with period 4. -/
theorem wave3_cursor_period (k : Nat) :
    (advance_frame_for_playback^[k + 4] wave3Start).current_index =
      (advance_frame_for_playback^[k] wave3Start).current_index := by
  cases k with
  | zero => decide
  | succ j =>
    rw [show j + 1 + 4 = j + 5 from by omega, wave3_iterate_five j]

/-- The claimed wave pattern is periodic with period 4. -/
theorem wavePat_add_four (k : Nat) : wavePat (k + 4) = wavePat k := by
  simp only [wavePat, Nat.add_mod_right]

/-- The three-frame wave trace follows the claimed 0,1,2,1 pattern at every
tick count. -/
theorem wave3_cursor_pattern (k : Nat) :
    (advance_frame_for_playback^[k] wave3Start).current_index = wavePat k := by
  induction k using Nat.strong_induction_on with
  | _ k ih =>
    rcases Nat.lt_or_ge k 4 with hk | hk
    · interval_cases k <;> decide
    · obtain ⟨j, rfl⟩ : ∃ j, k = j + 4 := ⟨k - 4, by omega⟩
      rw [wave3_cursor_period j, wavePat_add_four j]
      exact ih j (by omega)

/-- A playback tick never changes the frame list. -/
theorem advance_preserves_frames (s : AppState) :
    (advance_frame_for_playback s).frames = s.frames := by
  rw [advance_frame_for_playback]
  split <;> rfl

/-- A playback tick never changes the animation mode. -/
theorem advance_preserves_mode (s : AppState) :
    (advance_frame_for_playback s).animation_mode = s.animation_mode := by
  rw [advance_frame_for_playback]
  split <;> rfl

/-- On a single-frame wave timeline with cursor 0, one tick leaves the
cursor at 0. -/
theorem wave1_step_cursor (s : AppState) (hl : s.frames.length = 1)
    (hm : s.animation_mode = "wave") (hc : s.current_index = 0) :
    (advance_frame_for_playback s).current_index = 0 := by
  have hne : s.frames ≠ [] := by
    intro h
    rw [h] at hl
    simp at hl
  rw [advance_frame_for_playback, if_neg (by simp [hne])]
  dsimp only
  rw [wave_step_rule s hm (by omega)]
  simp [wave_next_spec, wave_dir_spec, hc, hl]

/-- On a single-frame wave timeline with cursor 0, the cursor stays at 0
after any number of ticks. -/
theorem wave1_cursor_all (k : Nat) :
    ∀ s : AppState, s.frames.length = 1 → s.animation_mode = "wave" →
      s.current_index = 0 →
      (advance_frame_for_playback^[k] s).current_index = 0 := by
  induction k with
  | zero =>
    intro s _ _ hc
    simpa using hc
  | succ j ih =>
    intro s hl hm hc
    rw [Function.iterate_succ_apply]
    exact ih (advance_frame_for_playback s)
      (by rw [advance_preserves_frames s]; exact hl)
      (by rw [advance_preserves_mode s]; exact hm)
      (wave1_step_cursor s hl hm hc)

/-- C1: a wave-mode advance on a timeline of length n >= 1 first forces the
direction (+1 at the left endpoint test `cursor <= 0`, tested first, else -1
at the right endpoint test `cursor >= n-1`, else the persisted direction)
and sets the new cursor to clamp(cursor + direction, 0, n-1); consequently a
3-frame timeline started at cursor 0 visits 0,1,2,1,0,1,2,... and a 1-frame
timeline stays at cursor 0 forever. -/
theorem C1_wave_mode_advance :
    (∀ s : AppState, s.animation_mode = "wave" → 1 ≤ s.frames.length →
      get_next_index_for_mode s = (wave_next_spec s, wave_dir_spec s)) ∧
    (∀ k : Nat, (advance_frame_for_playback^[k] wave3Start).current_index = wavePat k) ∧
    (∀ (d : Int) (k : Nat),
      (advance_frame_for_playback^[k] (wave1Start d)).current_index = 0) :=
  ⟨wave_step_rule, wave3_cursor_pattern,
   fun d k => wave1_cursor_all k (wave1Start d) rfl rfl rfl⟩

/-- C1 witness: the theorem applied at concrete inputs — the first advance
of the 3-frame wave state, the cursor after 6 ticks (pattern value 2), and
the cursor of a 1-frame wave state after 7 ticks with persisted direction
-1. -/
theorem C1_wave_mode_advance_witness :
    get_next_index_for_mode wave3Start = (1, 1) ∧
    (advance_frame_for_playback^[6] wave3Start).current_index = 2 ∧
    (advance_frame_for_playback^[7] (wave1Start (-1))).current_index = 0 := by
  refine ⟨?_, ?_, C1_wave_mode_advance.2.2 (-1) 7⟩
  · exact (C1_wave_mode_advance.1 wave3Start rfl (by decide)).trans (by decide)
  · exact (C1_wave_mode_advance.2.1 6).trans (by decide)
